import Mathlib

/-!
Verification of the iotzone publisher core: a shallow embedding of the node
registry (`RegisteredNodes`), the configure-command receiver
(`ReceiveNodeConfigure`), the set-command receiver (`InputFromSetCommands`)
and the publisher-identity trust chain (`handlePublisherDiscovery`), together
with theorems settling the specification claims.

Go reference semantics captured by the embedding:
* Go maps (`map[string]T`) become association lists `List (String × T)`;
  a read of a missing key yields the zero value, modelled with `Option`/`getD`.
* Go map values of pointer type can hold `nil`; such maps become
  `List (String × Option Node)`.
* Go maps are reference values: `Clone` copies the `Attr` and `Status` maps
  but only shallow-copies `Config`, so old and new node share one `Config`
  map.  The embedding makes that sharing explicit: a node stores a `ConfigRef`
  index into a `configStore`, and shallow copy keeps the index.
* `time.Now()` is modelled by a `timeNow` field threaded in the registry state.
* External collaborators (message transport decode, JSON, crypto) are
  modelled as data carried by the incoming message or as function parameters.
-/

namespace IotZone

/-- Association-list read, first match wins; models a Go map lookup with
presence information. -/
def mapGet {α β : Type} [DecidableEq α] : List (α × β) → α → Option β
  | [], _ => none
  | (k, v) :: t, key => if k = key then some v else mapGet t key

/-- Association-list write, replace the first binding in place or append;
models a Go map store. -/
def mapSet {α β : Type} [DecidableEq α] : List (α × β) → α → β → List (α × β)
  | [], key, value => [(key, value)]
  | (k, v) :: t, key, value =>
      if k = key then (key, value) :: t else (k, v) :: mapSet t key value

/-- Split a character list at every slash; helper for `goSplit`. -/
def splitChars : List Char → List Char → List (List Char)
  | [], cur => [cur.reverse]
  | c :: rest, cur =>
      if c = '/' then cur.reverse :: splitChars rest []
      else splitChars rest (c :: cur)

/-- Models Go strings.Split(s, "/"). -/
def goSplit (s : String) : List String := (splitChars s.data []).map String.mk

/-- Models Go strings.Join(parts, "/"). -/
def goJoin : List String → String
  | [] => ""
  | [x] => x
  | x :: y :: xs => x ++ "/" ++ goJoin (y :: xs)

/-- Lexicographic order on character lists; helper for `goStringLess`. -/
def lexLess : List Char → List Char → Bool
  | [], [] => false
  | [], _ :: _ => true
  | _ :: _, [] => false
  | a :: as, b :: bs => if a < b then true else if b < a then false else lexLess as bs

/-- Models the Go string comparison a < b (byte-wise lexicographic). -/
def goStringLess (a b : String) : Bool := lexLess a.data b.data

/-- Decimal digit-list to number; helper for `goAtoi`. -/
def digitsToNat : List Char → Option Nat
  | [] => none
  | ds => if ds.all (·.isDigit) then some (ds.foldl (fun n c => n * 10 + (c.toNat - 48)) 0) else none

/-- Models Go strconv.Atoi: optional sign followed by decimal digits. -/
def goAtoi (s : String) : Option Int :=
  match s.data with
  | '+' :: rest => (digitsToNat rest).map Int.ofNat
  | '-' :: rest => (digitsToNat rest).map (fun n => -(n : Int))
  | ds => (digitsToNat ds).map Int.ofNat

/-- Models Go strconv.ParseBool: the fixed set of accepted literals. -/
def goParseBool (s : String) : Option Bool :=
  if s = "1" ∨ s = "t" ∨ s = "T" ∨ s = "true" ∨ s = "TRUE" ∨ s = "True" then some true
  else if s = "0" ∨ s = "f" ∨ s = "F" ∨ s = "false" ∨ s = "FALSE" ∨ s = "False" then some false
  else none

/-! Constants from the external types package (message-type and attribute
tokens).  Their exact spellings are opaque to the analyzed sources; distinct
strings are all the code relies on. -/

def MessageTypeNodeDiscovery : String := "$node"

def MessageTypeInputDiscovery : String := "$input"

def MessageTypeSet : String := "$set"

def MessageTypeConfigure : String := "$configure"

def MessageTypeIdentity : String := "$identity"

def DSSPublisherID : String := "$dss"

def NodeAttrType : String := "type"

def NodeAttrName : String := "name"

def NodeAttrPublishEvent : String := "publishEvent"

def NodeAttrPublishHistory : String := "publishHistory"

def NodeAttrPublishLatest : String := "publishLatest"

def NodeAttrPublishRaw : String := "publishRaw"

def NodeStatusLastError : String := "lastError"

def NodeStatusRunState : String := "runState"

def DataTypeString : String := "string"

def DataTypeBool : String := "bool"

/-- types.ConfigAttr: dataType, description and default value of one
configurable attribute. -/
structure ConfigAttr where
  DataType : String
  Description : String
  Default : String
deriving DecidableEq

/-- types.NodeDiscoveryMessage.  `ConfigRef` is the identity of the Go
`Config` map object (maps are reference values); the map contents live in
`RegisteredNodes.configStore`. -/
structure Node where
  Address : String
  HWID : String
  NodeID : String
  PublisherID : String
  Attr : List (String × String)
  ConfigRef : Nat
  Status : List (String × String)
  Timestamp : String
deriving DecidableEq

/-- RegisteredNodes: the registry state of part_000.  `deviceMap` never holds
nil in the source, `nodeMap` and `updatedNodes` do (SetNodeID stores nil
entries), and `updatedNodes` itself can be the nil map after GetUpdatedNodes
clears it. -/
structure RegisteredNodes where
  domain : String
  publisherID : String
  deviceMap : List (String × Node)
  nodeMap : List (String × Option Node)
  updatedNodes : Option (List (String × Option Node))
  configStore : List (Nat × List (String × ConfigAttr))
  nextRef : Nat
  timeNow : String
deriving DecidableEq

/-- The Config map contents observed through a node (dereference of the Go
map reference). -/
def configOf (reg : RegisteredNodes) (node : Node) : List (String × ConfigAttr) :=
  (mapGet reg.configStore node.ConfigRef).getD []

/-- MakeNodeAddress from part_000: domain/publisherID/nodeID with an optional
trailing message type. -/
def MakeNodeAddress (domain publisherID nodeID messageType : String) : String :=
  let address := domain ++ "/" ++ publisherID ++ "/" ++ nodeID
  if messageType ≠ "" then address ++ "/" ++ messageType else address

/-- MakeNodeDiscoveryAddress from part_000. -/
def MakeNodeDiscoveryAddress (domain publisherID nodeID : String) : String :=
  MakeNodeAddress domain publisherID nodeID MessageTypeNodeDiscovery

/-- MakeNodeConfigureAddress from part_000. -/
def MakeNodeConfigureAddress (domain publisherID nodeID : String) : String :=
  MakeNodeAddress domain publisherID nodeID MessageTypeConfigure

/-- NewNodeConfig from part_000. -/
def NewNodeConfig (dataType description defaultValue : String) : ConfigAttr :=
  { DataType := dataType, Description := description, Default := defaultValue }

/-- Clone from part_000: copies the Attr and Status maps (value copies here)
and shallow-copies Config, i.e. the clone keeps the same `ConfigRef`, sharing
one Config map with the original node. -/
def Clone (node : Node) : Node :=
  { node with Attr := node.Attr, Status := node.Status }

/-- NewNode from part_000: rejects any empty argument, otherwise builds a
fresh node with nodeID = hwID, the type attribute, and the five default
configuration entries.  Allocating the fresh Config map is modelled by taking
a fresh `ConfigRef` from the store. -/
def NewNode (reg : RegisteredNodes) (domain publisherID nodeHWID nodeType : String) :
    Option Node × RegisteredNodes :=
  if domain = "" ∨ publisherID = "" ∨ nodeHWID = "" ∨ nodeType = "" then (none, reg)
  else
    let address := MakeNodeAddress domain publisherID nodeHWID MessageTypeNodeDiscovery
    let config : List (String × ConfigAttr) :=
      [(NodeAttrName, NewNodeConfig DataTypeString "Human friendly node name" ""),
       (NodeAttrPublishEvent, NewNodeConfig DataTypeString "Enable publishing outputs as event" "false"),
       (NodeAttrPublishHistory, NewNodeConfig DataTypeBool "Enable publishing output history" "true"),
       (NodeAttrPublishLatest, NewNodeConfig DataTypeBool "Enable publishing latest output" "true"),
       (NodeAttrPublishRaw, NewNodeConfig DataTypeBool "Enable publishing raw outputs" "true")]
    let ref := reg.nextRef
    let node : Node :=
      { Address := address, HWID := nodeHWID, NodeID := nodeHWID,
        PublisherID := publisherID, Attr := [(NodeAttrType, nodeType)],
        ConfigRef := ref, Status := [], Timestamp := reg.timeNow }
    (some node,
     { reg with configStore := mapSet reg.configStore ref config, nextRef := ref + 1 })

/-- updateNode from part_000 (private helper): no-op on nil, otherwise stamps
the node with the current time and stores it under nodeMap, deviceMap and
updatedNodes (creating updatedNodes when it is the nil map).  In the source
the timestamp is written through the shared pointer, so all three maps see
the stamped node. -/
def updateNode (reg : RegisteredNodes) (node : Option Node) : RegisteredNodes :=
  match node with
  | none => reg
  | some n =>
    let n := { n with Timestamp := reg.timeNow }
    { reg with
      nodeMap := mapSet reg.nodeMap n.NodeID (some n),
      deviceMap := mapSet reg.deviceMap n.HWID n,
      updatedNodes := some (mapSet (reg.updatedNodes.getD []) n.Address (some n)) }

/-- GetNodeByHWID from part_000. -/
def GetNodeByHWID (reg : RegisteredNodes) (nodeHWID : String) : Option Node :=
  mapGet reg.deviceMap nodeHWID

/-- GetNodeByNodeID from part_000; a stored nil entry reads as nil. -/
def GetNodeByNodeID (reg : RegisteredNodes) (nodeID : String) : Option Node :=
  (mapGet reg.nodeMap nodeID).join

/-- GetNodeByAddress from part_000: parses the third address segment as the
nodeID; nil on a short address. -/
def GetNodeByAddress (reg : RegisteredNodes) (address : String) : Option Node :=
  match goSplit address with
  | _ :: _ :: nodeID :: _ => (mapGet reg.nodeMap nodeID).join
  | _ => none

/-- GetNodeAttr from part_000: empty string when the device or the attribute
is unknown. -/
def GetNodeAttr (reg : RegisteredNodes) (nodeHWID attrName : String) : String :=
  match mapGet reg.deviceMap nodeHWID with
  | none => ""
  | some node => (mapGet node.Attr attrName).getD ""

/-- CreateNode from part_000: returns the node registered under hwID when
present, otherwise builds a NewNode and registers it via updateNode. -/
def CreateNode (reg : RegisteredNodes) (hwID nodeType : String) :
    Option Node × RegisteredNodes :=
  match GetNodeByHWID reg hwID with
  | some existingNode => (some existingNode, reg)
  | none =>
    let r := NewNode reg reg.domain reg.publisherID hwID nodeType
    (r.1, updateNode r.2 r.1)

/-- Merge an existing configuration entry with new metadata, or build a fresh
one; the body of CreateNodeConfig in part_000. -/
def mergeConfig (old : Option ConfigAttr) (dataType description defaultValue : String) : ConfigAttr :=
  match old with
  | none => { DataType := dataType, Description := description, Default := defaultValue }
  | some c => { c with DataType := dataType, Default := defaultValue, Description := description }

/-- CreateNodeConfig from part_000: creates or updates a configuration entry.
The write `newNode.Config[attrName] = config` goes through the Config map
shared between the clone and the stored node. -/
def CreateNodeConfig (reg : RegisteredNodes) (hwID attrName dataType description defaultValue : String) :
    Option ConfigAttr × RegisteredNodes :=
  match GetNodeByHWID reg hwID with
  | none => (none, reg)
  | some node =>
    let config := mergeConfig (mapGet (configOf reg node) attrName) dataType description defaultValue
    let newNode := Clone node
    let cfg := configOf reg node
    let reg1 := { reg with
      configStore := mapSet reg.configStore newNode.ConfigRef (mapSet cfg attrName config) }
    (some config, updateNode reg1 (some newNode))

/-- GetNodeConfigString error text for an unknown device. -/
def errDeviceNotFound (nodeHWID : String) : String :=
  "NodeList.GetNodeConfigString: Device " ++ nodeHWID ++ " not found"

/-- GetNodeConfigString error text for an unknown configuration key. -/
def errConfigNotFound (nodeHWID attrName : String) : String :=
  "NodeList.GetNodeConfigString: Device " ++ nodeHWID ++ " configuration " ++ attrName ++ " does not exist"

/-- GetNodeConfigString from part_000: value precedence is the stored
non-empty attribute value, else the non-empty configuration default, else the
caller default; NotFound errors when the device or the configuration key is
missing. -/
def GetNodeConfigString (reg : RegisteredNodes) (nodeHWID attrName defaultValue : String) :
    String × Option String :=
  match mapGet reg.deviceMap nodeHWID with
  | none => (defaultValue, some (errDeviceNotFound nodeHWID))
  | some node =>
    match mapGet (configOf reg node) attrName with
    | none => (defaultValue, some (errConfigNotFound nodeHWID attrName))
    | some config =>
      let attrValue :=
        match mapGet node.Attr attrName with
        | none => config.Default
        | some v => if v = "" then config.Default else v
      if attrValue = "" then (defaultValue, none) else (attrValue, none)

/-- The shared wrapper shape of GetNodeConfigBool, GetNodeConfigFloat and
GetNodeConfigInt in part_000: read the string value with an empty caller
default, pass errors through, treat the empty value as unset, and report a
parse failure with the caller default. -/
def GetNodeConfigParsed {α : Type} (parse : String → Option α) (errText : String → String → String)
    (reg : RegisteredNodes) (nodeHWID attrName : String) (defaultValue : α) :
    α × Option String :=
  let r := GetNodeConfigString reg nodeHWID attrName ""
  match r.2 with
  | some e => (defaultValue, some e)
  | none =>
    if r.1 = "" then (defaultValue, none)
    else
      match parse r.1 with
      | none => (defaultValue, some (errText nodeHWID attrName))
      | some v => (v, none)

/-- GetNodeConfigInt from part_000, as the wrapper instantiated with Atoi. -/
def GetNodeConfigInt (reg : RegisteredNodes) (nodeHWID attrName : String) (defaultValue : Int) :
    Int × Option String :=
  GetNodeConfigParsed goAtoi
    (fun h a => "NodeList.GetNodeConfigInt: Node " ++ h ++ " configuration " ++ a ++ " is not an integer")
    reg nodeHWID attrName defaultValue

/-- GetNodeConfigBool from part_000, as the wrapper instantiated with
ParseBool. -/
def GetNodeConfigBool (reg : RegisteredNodes) (nodeHWID attrName : String) (defaultValue : Bool) :
    Bool × Option String :=
  GetNodeConfigParsed goParseBool
    (fun h a => "NodeList.GetNodeConfigBool: Node " ++ h ++ " configuration " ++ a ++ " is not a boolean")
    reg nodeHWID attrName defaultValue

/-- One step of the UpdateNodeAttr loop: write the attribute on the clone
when the value read back from the clone differs. -/
def updAttrStep (acc : Node × Bool) (kv : String × String) : Node × Bool :=
  if (mapGet acc.1.Attr kv.1).getD "" ≠ kv.2 then
    ({ acc.1 with Attr := mapSet acc.1.Attr kv.1 kv.2 }, true)
  else acc

/-- UpdateNodeAttr from part_000: clone, merge the attribute map, and
register the clone only when at least one value changed. -/
def UpdateNodeAttr (reg : RegisteredNodes) (nodeHWID : String)
    (attrParams : List (String × String)) : Bool × RegisteredNodes :=
  match GetNodeByHWID reg nodeHWID with
  | none => (false, reg)
  | some node =>
    let r := attrParams.foldl updAttrStep (Clone node, false)
    if r.2 then (true, updateNode reg (some r.1)) else (false, reg)

/-- One step of the UpdateNodeStatus loop. -/
def updStatusStep (acc : Node × Bool) (kv : String × String) : Node × Bool :=
  if (mapGet acc.1.Status kv.1).getD "" ≠ kv.2 then
    ({ acc.1 with Status := mapSet acc.1.Status kv.1 kv.2 }, true)
  else acc

/-- UpdateNodeStatus from part_000: same clone/diff/publish-if-changed
discipline applied to the Status map. -/
def UpdateNodeStatus (reg : RegisteredNodes) (nodeHWID : String)
    (statusAttr : List (String × String)) : Bool × RegisteredNodes :=
  match GetNodeByHWID reg nodeHWID with
  | none => (false, reg)
  | some node =>
    let r := statusAttr.foldl updStatusStep (Clone node, false)
    if r.2 then (true, updateNode reg (some r.1)) else (false, reg)

/-- UpdateErrorStatus from part_000: sets the lastError and runState status
keys on a clone, comparing against the stored node, and registers the clone
only when one of the two changed. -/
def UpdateErrorStatus (reg : RegisteredNodes) (nodeHWID runState errorMsg : String) :
    Bool × RegisteredNodes :=
  match GetNodeByHWID reg nodeHWID with
  | none => (false, reg)
  | some node =>
    let newNode := Clone node
    let r1 : Node × Bool :=
      if (mapGet node.Status NodeStatusLastError).getD "" ≠ errorMsg then
        ({ newNode with Status := mapSet newNode.Status NodeStatusLastError errorMsg }, true)
      else (newNode, false)
    let r2 : Node × Bool :=
      if (mapGet node.Status NodeStatusRunState).getD "" ≠ runState then
        ({ r1.1 with Status := mapSet r1.1.Status NodeStatusRunState runState }, true)
      else r1
    if r2.2 then (true, updateNode reg (some r2.1)) else (false, reg)

/-- One step of the UpdateNodeConfigValues loop: keys without a Config entry
on the stored node are ignored; for configured keys the attribute is written
when it differs from the stored node value. -/
def updConfigValueStep (cfg : List (String × ConfigAttr)) (oldAttr : List (String × String))
    (acc : Node × Bool) (kv : String × String) : Node × Bool :=
  match mapGet cfg kv.1 with
  | none => acc
  | some _ =>
    match mapGet oldAttr kv.1 with
    | none => ({ acc.1 with Attr := mapSet acc.1.Attr kv.1 kv.2 }, true)
    | some oldValue =>
      if oldValue ≠ kv.2 then ({ acc.1 with Attr := mapSet acc.1.Attr kv.1 kv.2 }, true)
      else acc

/-- UpdateNodeConfigValues from part_000: applies values only for attribute
names that already have a Config entry; a nil parameter map or an unknown
hwID is a no-op returning false. -/
def UpdateNodeConfigValues (reg : RegisteredNodes) (nodeHWID : String)
    (params : Option (List (String × String))) : Bool × RegisteredNodes :=
  match GetNodeByHWID reg nodeHWID, params with
  | none, _ => (false, reg)
  | some _, none => (false, reg)
  | some node, some ps =>
    let r := ps.foldl (updConfigValueStep (configOf reg node) node.Attr) (Clone node, false)
    if r.2 then (true, updateNode reg (some r.1)) else (false, reg)

/-- UpdateNodeConfig from part_000: replaces a configuration descriptor
outright.  The write `newNode.Config[attrName] = *configAttr` goes through
the Config map shared between the clone and the stored node. -/
def UpdateNodeConfig (reg : RegisteredNodes) (nodeHWID attrName : String)
    (configAttr : Option ConfigAttr) : RegisteredNodes :=
  match GetNodeByHWID reg nodeHWID, configAttr with
  | none, _ => reg
  | some _, none => reg
  | some node, some c =>
    if attrName = "" then reg
    else
      let newNode := Clone node
      let cfg := configOf reg node
      let reg1 := { reg with
        configStore := mapSet reg.configStore newNode.ConfigRef (mapSet cfg attrName c) }
      updateNode reg1 (some newNode)

/-- SetNodeID from part_000: renames the publication identity.  An empty new
ID restores nodeID = hwID; otherwise the rename is refused when the new ID is
registered under nodeMap and differs from the hwID of the node being renamed.
On success the old nodeID entries are nulled in nodeMap and updatedNodes and
the renamed clone is registered under its new discovery address. -/
def SetNodeID (reg : RegisteredNodes) (node : Option Node) (newNodeID : String) :
    Bool × RegisteredNodes :=
  match node with
  | none => (false, reg)
  | some n =>
    let newNode := Clone n
    let renamed : Option Node :=
      if newNodeID = "" then some { newNode with NodeID := n.HWID }
      else
        match GetNodeByNodeID reg newNodeID with
        | some _ =>
          if newNodeID ≠ n.HWID then none else some { newNode with NodeID := newNodeID }
        | none => some { newNode with NodeID := newNodeID }
    match renamed with
    | none => (false, reg)
    | some newNode =>
      let reg1 := { reg with
        nodeMap := mapSet reg.nodeMap n.NodeID none,
        updatedNodes := some (mapSet (reg.updatedNodes.getD []) n.NodeID none) }
      let newNode := { newNode with
        Address := MakeNodeDiscoveryAddress reg1.domain reg1.publisherID newNode.NodeID }
      (true, updateNode reg1 (some newNode))

/-- GetUpdatedNodes from part_000: snapshot of the pending publications,
optionally clearing the pending set back to the nil map. -/
def GetUpdatedNodes (reg : RegisteredNodes) (clearUpdates : Bool) :
    List (Option Node) × RegisteredNodes :=
  match reg.updatedNodes with
  | none => ([], reg)
  | some updated =>
    (updated.map (·.2), if clearUpdates then { reg with updatedNodes := none } else reg)

/-- NewRegisteredNodes from part_000. -/
def NewRegisteredNodes (domain publisherID : String) : RegisteredNodes :=
  { domain := domain, publisherID := publisherID, deviceMap := [], nodeMap := [],
    updatedNodes := some [], configStore := [], nextRef := 0, timeNow := "" }

/-! ReceiveNodeConfigure (src/nodes/ReceiveNodeConfigure.go).  The transport
method messageSigner.DecodeMessage is an external collaborator; the envelope
carries its outcome: the signed and encrypted flags, the decode error, and
the decoded payload. -/

/-- types.NodeConfigureMessage: sender, timestamp and the requested attribute
map (nil when the JSON carries none). -/
structure NodeConfigureMessage where
  Sender : String
  Timestamp : String
  Attr : Option (List (String × String))
deriving DecidableEq

/-- An inbound configure-command envelope together with the outcome of
DecodeMessage on it. -/
structure ConfigureEnvelope where
  raw : String
  isSigned : Bool
  isEncrypted : Bool
  decodeErr : Option String
  payload : NodeConfigureMessage
deriving DecidableEq

/-- receiveConfigureCommand error text for an unencrypted envelope. -/
def errNotEncrypted (address : String) : String :=
  "receiveConfigureCommand: Configuration update of " ++ address ++ " is not encrypted. Message discarded."

/-- receiveConfigureCommand error text for an unsigned envelope. -/
def errNotSigned (address : String) : String :=
  "receiveConfigureCommand: Configuration update of " ++ address ++ " is not signed. Message discarded."

/-- receiveConfigureCommand error text for a decode failure. -/
def errDecode (address e : String) : String :=
  "receiveConfigureCommand: Message to " ++ address ++ ". Error " ++ e ++ ". Message discarded."

/-- receiveConfigureCommand error text for an unknown node or empty message. -/
def errUnknownNode (address : String) : String :=
  "receiveConfigureCommand unknown node for address " ++ address ++ " or missing message"

/-- The observable outcome of receiveConfigureCommand: the returned error,
the registry afterwards, and a record of the UpdateNodeConfigValues call when
one was made (its nodeID argument and parameter map). -/
structure ConfigureResult where
  err : Option String
  reg : RegisteredNodes
  applied : Option (String × List (String × String))
deriving DecidableEq

/-- receiveConfigureCommand from ReceiveNodeConfigure.go: reject unencrypted,
unsigned or undecodable envelopes and unknown nodes; otherwise pass the
attribute map through the optional handler and, when non-nil, apply it via
UpdateNodeConfigValues keyed by the node NodeID. -/
def receiveConfigureCommand
    (handler : Option (String → Option (List (String × String)) → Option (List (String × String))))
    (reg : RegisteredNodes) (address : String) (m : ConfigureEnvelope) : ConfigureResult :=
  if m.isEncrypted = false then { err := some (errNotEncrypted address), reg := reg, applied := none }
  else if m.isSigned = false then { err := some (errNotSigned address), reg := reg, applied := none }
  else
    match m.decodeErr with
    | some e => { err := some (errDecode address e), reg := reg, applied := none }
    | none =>
      match GetNodeByAddress reg address with
      | none => { err := some (errUnknownNode address), reg := reg, applied := none }
      | some node =>
        if m.raw = "" then { err := some (errUnknownNode address), reg := reg, applied := none }
        else
          let params :=
            match handler with
            | none => m.payload.Attr
            | some h => h address m.payload.Attr
          match params with
          | none => { err := none, reg := reg, applied := none }
          | some p =>
            { err := none, reg := (UpdateNodeConfigValues reg node.NodeID (some p)).2,
              applied := some (node.NodeID, p) }

/-! InputFromSetCommands (src/inputs/InputFromSetCommands.go). -/

/-- types.SetInputMessage: sender, timestamp and the requested value. -/
structure SetInputMessage where
  Sender : String
  Timestamp : String
  Value : String
deriving DecidableEq

/-- An inbound set-command envelope together with the outcome of
DecodeMessage on it. -/
structure SetEnvelope where
  isSigned : Bool
  isEncrypted : Bool
  decodeErr : Option String
  payload : SetInputMessage
deriving DecidableEq

/-- The ingestor state touched by decodeSetCommand: the per-sender timestamp
table, and the set of registered input addresses consulted by the input
registry. -/
structure SetCommandState where
  senderTimestamp : List (String × String)
  registeredInputAddresses : List String
deriving DecidableEq

/-- The observable outcome of decodeSetCommand: the returned error, the state
afterwards, and the input-callback invocation when one happened, as the
(inputAddress, sender, value) triple. -/
structure SetResult where
  err : Option String
  st : SetCommandState
  notified : Option (String × String × String)
deriving DecidableEq

/-- Modelled from the spec: RegisteredInputs.NotifyInputHandler is not among
the analyzed sources.  Per the spec the input registry is keyed by full input
address and holds a per-input callback invoked when a verified set command
targets it; looking up an unknown address finds no input and invokes no
callback. -/
def NotifyInputHandler (st : SetCommandState) (inputAddr sender value : String) :
    Option (String × String × String) :=
  if st.registeredInputAddresses.contains inputAddr then some (inputAddr, sender, value) else none

/-- decodeSetCommand error text for a short address. -/
def errSetIncomplete (address : String) : String :=
  "decodeSetCommand: Destination address " ++ address ++ " is incomplete."

/-- decodeSetCommand error text for an unencrypted envelope. -/
def errSetNotEncrypted (address : String) : String :=
  "decodeSetCommand: Alias update of " ++ address ++ " is not encrypted. Message discarded."

/-- decodeSetCommand error text for an unsigned envelope. -/
def errSetNotSigned (address : String) : String :=
  "decodeSetCommand: Alias update of " ++ address ++ " is not signed. Message discarded."

/-- decodeSetCommand error text for a decode failure. -/
def errSetDecode (address e : String) : String :=
  "decodeSetCommand: Message to " ++ address ++ ". Error " ++ e ++ ". Message discarded."

/-- decodeSetCommand error text for a stale timestamp. -/
def errSetReplay (address sender : String) : String :=
  "decodeSetCommand: earlier timestamp of message to input " ++ address ++ " from sender " ++ sender ++ ". Message discarded."

/-- decodeSetCommand from InputFromSetCommands.go: require a full six-segment
address, derive the input discovery address by replacing segment five, reject
unencrypted, unsigned or undecodable envelopes, reject a timestamp that is
strictly older than the last one recorded for the sender, then record the
timestamp and notify the input registry. -/
def decodeSetCommand (st : SetCommandState) (address : String) (m : SetEnvelope) : SetResult :=
  let segments := goSplit address
  if segments.length < 6 then { err := some (errSetIncomplete address), st := st, notified := none }
  else
    let inputAddr := goJoin (segments.set 5 MessageTypeInputDiscovery)
    if m.isEncrypted = false then
      { err := some (errSetNotEncrypted address), st := st, notified := none }
    else if m.isSigned = false then
      { err := some (errSetNotSigned address), st := st, notified := none }
    else
      match m.decodeErr with
      | some e => { err := some (errSetDecode address e), st := st, notified := none }
      | none =>
        let prevTimestamp := (mapGet st.senderTimestamp m.payload.Sender).getD ""
        if goStringLess m.payload.Timestamp prevTimestamp then
          { err := some (errSetReplay address m.payload.Sender), st := st, notified := none }
        else
          let st1 : SetCommandState :=
            { st with senderTimestamp := mapSet st.senderTimestamp m.payload.Sender m.payload.Timestamp }
          { err := none, st := st1,
            notified := NotifyInputHandler st1 inputAddr m.payload.Sender m.payload.Value }

/-! handlePublisherDiscovery (src/publisher/handlePublisherDiscovery.go).
JOSE parsing, JSON and base64 are external libraries; the envelope carries
whether it parsed as signed and the identity decoded from its payload.  The
elliptic-curve check messaging.VerifyEcdsaSignature is passed in as a
function parameter. -/

/-- types.PublisherIdentityMessage: the identity address, the public signing
key material, and the optional DSS countersignature over the identity. -/
structure PublisherIdentityMessage where
  Address : String
  PublicSigningKey : String
  IdentitySignature : String
deriving DecidableEq

/-- An inbound identity announcement: whether jose.ParseSigned succeeded, and
the identity parsed from the payload (nil on a JSON parse failure). -/
structure IdentityEnvelope where
  isSigned : Bool
  identity : Option PublisherIdentityMessage
deriving DecidableEq

/-- The observable outcome of handlePublisherDiscovery: the returned error
and the publisher directory afterwards. -/
structure DiscoveryResult where
  err : Option String
  publisherDirectory : List (String × PublisherIdentityMessage)
deriving DecidableEq

/-- publishers.MakePublisherIdentityAddress: domain/publisherID/$identity. -/
def MakePublisherIdentityAddress (domain publisherID : String) : String :=
  domain ++ "/" ++ publisherID ++ "/" ++ MessageTypeIdentity

/-- Modelled from the spec: the external publisher directory stores and
replaces identity records keyed by address. -/
def UpdatePublisher (dir : List (String × PublisherIdentityMessage))
    (msg : PublisherIdentityMessage) : List (String × PublisherIdentityMessage) :=
  mapSet dir msg.Address msg

/-- Modelled from the spec: the publisher directory is the sole source of
public keys; the key for an address is the signing key of the stored
identity, nil when no identity is stored. -/
def GetPublisherKey (dir : List (String × PublisherIdentityMessage)) (address : String) :
    Option String :=
  (mapGet dir address).map (·.PublicSigningKey)

/-- handleDSSDiscovery from handlePublisherDiscovery.go: records the DSS
identity into the publisher directory without verification (the source
trusts address protection here). -/
def handleDSSDiscovery (dir : List (String × PublisherIdentityMessage))
    (dssIdentityMsg : PublisherIdentityMessage) : List (String × PublisherIdentityMessage) :=
  UpdatePublisher dir dssIdentityMsg

/-- The base64-url-encoded JSON serialization of the identity built by
handlePublisherDiscovery before verification; modelled as an injective
encoding of the record since JSON and base64 are external libraries. -/
def encodeIdentity (msg : PublisherIdentityMessage) : String :=
  "id:" ++ msg.Address ++ "|" ++ msg.PublicSigningKey ++ "|" ++ msg.IdentitySignature

/-- handlePublisherDiscovery error text for an unsigned update under a
signing-required policy. -/
def errUnsignedUpdate (address : String) : String :=
  "handlePublisherDiscovery: Publisher update is not signed but only signed updates are accepted. Publisher: " ++ address

/-- handlePublisherDiscovery error text for a payload parse failure. -/
def errIdentityParse : String :=
  "handlePublisherDiscovery: Failed parsing json payload"

/-- handlePublisherDiscovery error text for a failed DSS countersignature. -/
def errNotCountersigned (address : String) : String :=
  "handlePublisherDiscovery: Identity for " ++ address ++ " does not have a valid DSS signature"

/-- handlePublisherDiscovery from handlePublisherDiscovery.go: enforce the
signing policy, parse the identity, record a DSS announcement immediately via
handleDSSDiscovery, then either accept directly when no DSS key is known or
require the identity signature to verify against the DSS key currently in
the directory. -/
def handlePublisherDiscovery (verify : String → String → String → Bool)
    (signMessages : Bool) (domain : String)
    (dir : List (String × PublisherIdentityMessage))
    (address : String) (m : IdentityEnvelope) : DiscoveryResult :=
  if m.isSigned = false ∧ signMessages = true then
    { err := some (errUnsignedUpdate address), publisherDirectory := dir }
  else
    match m.identity with
    | none => { err := some errIdentityParse, publisherDirectory := dir }
    | some pubIdentityMsg =>
      let dssAddress := MakePublisherIdentityAddress domain DSSPublisherID
      let dir1 := if address = dssAddress then handleDSSDiscovery dir pubIdentityMsg else dir
      match GetPublisherKey dir1 dssAddress with
      | none =>
        { err := none, publisherDirectory := UpdatePublisher dir1 pubIdentityMsg }
      | some dssSigningKey =>
        let base64URLIdentity := encodeIdentity pubIdentityMsg
        if verify base64URLIdentity pubIdentityMsg.IdentitySignature dssSigningKey = false then
          { err := some (errNotCountersigned address), publisherDirectory := dir1 }
        else
          { err := none, publisherDirectory := UpdatePublisher dir1 pubIdentityMsg }

/-! Helper lemmas. -/

/-- Reading back the key just written into an association list. -/
theorem mapGet_mapSet_self {α β : Type} [DecidableEq α] (l : List (α × β)) (k : α) (v : β) :
    mapGet (mapSet l k v) k = some v := by
  induction l with
  | nil => simp [mapSet, mapGet]
  | cons hd t ih =>
    obtain ⟨k1, v1⟩ := hd
    by_cases hk : k1 = k
    · simp [mapSet, hk, mapGet]
    · simp [mapSet, hk, mapGet, ih]

/-- updateNode never touches the config store. -/
theorem updateNode_configStore (reg : RegisteredNodes) (node : Option Node) :
    (updateNode reg node).configStore = reg.configStore := by
  cases node <;> rfl

/-- Two lists sharing a prefix but diverging at the next character differ. -/
theorem listNeMid {c d : Char} (p r s : List Char) (h : c ≠ d) :
    p ++ c :: r ≠ p ++ d :: s := by
  intro he
  have h2 := List.append_cancel_left he
  simp only [List.cons.injEq] at h2
  exact h h2.1

/-- Appending suffixes of different lengths to one string yields different
strings. -/
theorem append_ne_of_suffix_len {p a : String} (s1 s2 : String)
    (h : s1.length ≠ s2.length) : p ++ a ++ s1 ≠ p ++ a ++ s2 := by
  intro he
  have h1 := congrArg String.length he
  rw [String.length_append, String.length_append, String.length_append,
    String.length_append] at h1
  omega

/-! Concrete example states used by the witnesses and counterexamples. -/

/-- A fresh registry for the domain dom and publisher pub. -/
def regA : RegisteredNodes := NewRegisteredNodes "dom" "pub"

/-- regA after registering device hw1. -/
def regB : RegisteredNodes := (CreateNode regA "hw1" "sensor").2

/-- Placeholder node for Option.getD. -/
def dummyNode : Node :=
  { Address := "", HWID := "", NodeID := "", PublisherID := "", Attr := [],
    ConfigRef := 0, Status := [], Timestamp := "" }

/-- The node registered in regB under hw1. -/
def nodeB : Node := (GetNodeByHWID regB "hw1").getD dummyNode

/-- regB after also registering device b. -/
def c7reg2 : RegisteredNodes := (CreateNode regB "b" "sensor").2

/-- c7reg2 after renaming node hw1 to the nodeID x. -/
def c7reg3 : RegisteredNodes := (SetNodeID c7reg2 (GetNodeByHWID c7reg2 "hw1") "x").2

/-- c7reg3 after renaming node b to the now-free nodeID hw1. -/
def c7reg4 : RegisteredNodes := (SetNodeID c7reg3 (GetNodeByHWID c7reg3 "b") "hw1").2

/-- The device hw1 as registered in c7reg4 (its nodeID is x). -/
def c7Ax : Option Node := GetNodeByHWID c7reg4 "hw1"

/-- The device b as registered in c7reg2. -/
def c7Bnode : Node := (GetNodeByHWID c7reg2 "b").getD dummyNode

/-- regB after renaming node hw1 to the nodeID alias1. -/
def c6reg2 : RegisteredNodes := (SetNodeID regB (GetNodeByHWID regB "hw1") "alias1").2

/-- A well-formed signed and encrypted configure command asking to set the
name configuration value. -/
def c6msg : ConfigureEnvelope :=
  { raw := "x", isSigned := true, isEncrypted := true, decodeErr := none,
    payload := { Sender := "s", Timestamp := "T", Attr := some [(NodeAttrName, "newname")] } }

/-- The outcome of delivering c6msg to the renamed node via its configure
address. -/
def c6res : ConfigureResult :=
  receiveConfigureCommand none c6reg2 "dom/pub/alias1/$configure" c6msg

/-- A set-command ingestor state that has already accepted a command from
alice and has one registered input. -/
def c1st : SetCommandState :=
  { senderTimestamp := [("alice", "2021-01-01T00:00:00")],
    registeredInputAddresses := ["dom/pub/n1/switch/0/$input"] }

/-- A signed and encrypted set command from alice carrying exactly the
timestamp already recorded for alice in c1st. -/
def c1msg : SetEnvelope :=
  { isSigned := true, isEncrypted := true, decodeErr := none,
    payload := { Sender := "alice", Timestamp := "2021-01-01T00:00:00", Value := "on" } }

/-- An ingestor state with an empty timestamp table and no registered
inputs. -/
def c3st : SetCommandState := { senderTimestamp := [], registeredInputAddresses := [] }

/-- A signed and encrypted set command from alice with a fresh timestamp. -/
def c3msg : SetEnvelope :=
  { isSigned := true, isEncrypted := true, decodeErr := none,
    payload := { Sender := "alice", Timestamp := "2021-01-01T00:00:00", Value := "on" } }

/-- The identity address of the domain security service of domain dom. -/
def dssAddrW : String := MakePublisherIdentityAddress "dom" DSSPublisherID

/-- A previously recorded DSS identity. -/
def oldDSS : PublisherIdentityMessage :=
  { Address := dssAddrW, PublicSigningKey := "oldkey", IdentitySignature := "oldsig" }

/-- A DSS re-announcement carrying a new key and a signature that does not
verify. -/
def newDSS : PublisherIdentityMessage :=
  { Address := dssAddrW, PublicSigningKey := "newkey", IdentitySignature := "badsig" }

/-- A publisher directory in which the DSS identity is already recorded. -/
def dirW : List (String × PublisherIdentityMessage) := [(dssAddrW, oldDSS)]

/-- A signature checker under which every signature fails to verify, standing
for an announcement whose signature is simply wrong. -/
def verifyNone : String → String → String → Bool := fun _ _ _ => false

/-- A non-DSS publisher identity for witness instantiation. -/
def pubOther : PublisherIdentityMessage :=
  { Address := "dom/other/$identity", PublicSigningKey := "k2", IdentitySignature := "sig2" }

/-! The claims. -/

/-- C1: the claim says a set command whose timestamp equals the most recently
accepted timestamp of the same sender is rejected with an error, without a
table update and without an input callback.  The code compares with a strict
greater-than, so delivering the very same timestamp again is accepted: no
error is returned and the input callback fires, contradicting the replay
protection the claim (and the comment in the source) demand. -/
theorem C1_replay_equal_timestamp_accepted :
    (decodeSetCommand c1st "dom/pub/n1/switch/0/$set" c1msg).err = none
    ∧ (decodeSetCommand c1st "dom/pub/n1/switch/0/$set" c1msg).notified
        = some ("dom/pub/n1/switch/0/$input", "alice", "on")
    ∧ (decodeSetCommand c1st "dom/pub/n1/switch/0/$set" c1msg).st = c1st
    ∧ (mapGet c1st.senderTimestamp "alice").getD "" = c1msg.payload.Timestamp := by
  decide

/-- C9: CreateNode is idempotent: when hwID is already registered the call
returns the registered node and leaves every part of the registry (deviceMap,
nodeMap, updatedNodes) untouched. -/
theorem C9_createNode_idempotent (reg : RegisteredNodes) (hwID nodeType : String) (n : Node)
    (h : mapGet reg.deviceMap hwID = some n) :
    CreateNode reg hwID nodeType = (some n, reg) := by
  simp [CreateNode, GetNodeByHWID, h]

/-- Witness for C9 at the concrete registry regB, already holding hw1. -/
theorem C9_createNode_idempotent_witness :
    CreateNode regB "hw1" "sensor" = (some nodeB, regB) :=
  C9_createNode_idempotent regB "hw1" "sensor" nodeB (by decide)

/-- C10: CreateNode with an empty hwID or an empty nodeType on a registry not
containing that hwID returns nil and leaves the registry unchanged. -/
theorem C10_createNode_empty_args (reg : RegisteredNodes) (hwID nodeType : String)
    (h1 : mapGet reg.deviceMap hwID = none) (h2 : hwID = "" ∨ nodeType = "") :
    CreateNode reg hwID nodeType = (none, reg) := by
  simp only [CreateNode, GetNodeByHWID, h1]
  rcases h2 with h | h <;> simp [NewNode, h, updateNode]

/-- Witness for C10 at the fresh registry regA with an empty hwID. -/
theorem C10_createNode_empty_args_witness :
    CreateNode regA "" "sensor" = (none, regA) :=
  C10_createNode_empty_args regA "" "sensor" (by decide) (Or.inl rfl)

/-- C4 counterexample: the claim says after any UpdateNode call the node
value referenced before the call still shows the same Config contents.  The
Config map is only shallow-copied by Clone, so UpdateNodeConfig and
CreateNodeConfig write into the map shared with the stored node: the Config
contents observed through the old node reference change under either
operation. -/
theorem C4_counterexample :
    ((GetNodeByHWID regB "hw1").map
        (configOf (UpdateNodeConfig regB "hw1" NodeAttrName
          (some { DataType := "string", Description := "d", Default := "newdef" })))
      ≠ (GetNodeByHWID regB "hw1").map (configOf regB))
    ∧ ((GetNodeByHWID regB "hw1").map
        (configOf (CreateNodeConfig regB "hw1" NodeAttrName "string" "d" "newdef").2)
      ≠ (GetNodeByHWID regB "hw1").map (configOf regB)) := by
  decide

/-- C4 amended: UpdateNodeAttr, UpdateNodeStatus, UpdateErrorStatus and
UpdateNodeConfigValues leave the config store untouched, so the node value
referenced before the call observes unchanged Attr, Status and Config;
UpdateNodeConfig and CreateNodeConfig however write through the Config map
shared with the old node, whose observed Config contents become the updated
map (the old node value itself, hence its Attr and Status, is untouched). -/
theorem C4_immutability_amended (reg : RegisteredNodes)
    (nodeHWID runState errorMsg attrName dataType description defaultValue : String)
    (attrParams statusAttr : List (String × String))
    (params : Option (List (String × String))) (c : ConfigAttr) (node : Node) :
    ((UpdateNodeAttr reg nodeHWID attrParams).2.configStore = reg.configStore)
    ∧ ((UpdateNodeStatus reg nodeHWID statusAttr).2.configStore = reg.configStore)
    ∧ ((UpdateErrorStatus reg nodeHWID runState errorMsg).2.configStore = reg.configStore)
    ∧ ((UpdateNodeConfigValues reg nodeHWID params).2.configStore = reg.configStore)
    ∧ (GetNodeByHWID reg nodeHWID = some node → attrName ≠ "" →
        configOf (UpdateNodeConfig reg nodeHWID attrName (some c)) node
          = mapSet (configOf reg node) attrName c)
    ∧ (GetNodeByHWID reg nodeHWID = some node →
        configOf (CreateNodeConfig reg nodeHWID attrName dataType description defaultValue).2 node
          = mapSet (configOf reg node) attrName
              (mergeConfig (mapGet (configOf reg node) attrName) dataType description defaultValue)) := by
  refine ⟨?_, ?_, ?_, ?_, ?_, ?_⟩
  · cases h : GetNodeByHWID reg nodeHWID
    · simp [UpdateNodeAttr, h]
    · simp only [UpdateNodeAttr, h]
      split
      · simp [updateNode_configStore]
      · rfl
  · cases h : GetNodeByHWID reg nodeHWID
    · simp [UpdateNodeStatus, h]
    · simp only [UpdateNodeStatus, h]
      split
      · simp [updateNode_configStore]
      · rfl
  · cases h : GetNodeByHWID reg nodeHWID
    · simp [UpdateErrorStatus, h]
    · simp only [UpdateErrorStatus, h]
      split <;> (try split) <;> (try split) <;> simp [updateNode_configStore]
  · cases h : GetNodeByHWID reg nodeHWID
    · cases params <;> simp [UpdateNodeConfigValues, h]
    · cases params
      · simp [UpdateNodeConfigValues, h]
      · simp only [UpdateNodeConfigValues, h]
        split
        · simp [updateNode_configStore]
        · rfl
  · intro h hne
    simp only [UpdateNodeConfig, h]
    rw [if_neg hne]
    simp [configOf, updateNode_configStore, Clone, mapGet_mapSet_self]
  · intro h
    simp only [CreateNodeConfig, h]
    simp [configOf, updateNode_configStore, Clone, mapGet_mapSet_self]

/-- Witness for C4 amended at the concrete registry regB and its node,
exercising both the UpdateNodeConfig and the CreateNodeConfig clause. -/
theorem C4_immutability_amended_witness :
    (configOf (UpdateNodeConfig regB "hw1" NodeAttrName
        (some { DataType := "string", Description := "d", Default := "newdef" })) nodeB
      = mapSet (configOf regB nodeB) NodeAttrName
        { DataType := "string", Description := "d", Default := "newdef" })
    ∧ (configOf (CreateNodeConfig regB "hw1" NodeAttrName "string" "d" "newdef").2 nodeB
      = mapSet (configOf regB nodeB) NodeAttrName
        (mergeConfig (mapGet (configOf regB nodeB) NodeAttrName) "string" "d" "newdef")) :=
  ⟨(C4_immutability_amended regB "hw1" "r" "e" NodeAttrName "string" "d" "newdef" [] [] none
      { DataType := "string", Description := "d", Default := "newdef" } nodeB).2.2.2.2.1
    (by decide) (by decide),
   (C4_immutability_amended regB "hw1" "r" "e" NodeAttrName "string" "d" "newdef" [] [] none
      { DataType := "string", Description := "d", Default := "newdef" } nodeB).2.2.2.2.2
    (by decide)⟩

/-- C7 counterexample: the claim says SetNodeID fails and mutates nothing
whenever the requested nodeID is already the nodeID of a different registered
node.  In c7reg4 the nodeID hw1 is owned by the node with hardware ID b, yet
renaming the hw1 device (current nodeID x) to hw1 succeeds, because the code
always allows a node to take its own hardware ID, overwriting the other
node's registration. -/
theorem C7_counterexample :
    (GetNodeByNodeID c7reg4 "hw1").map (·.HWID) = some "b"
    ∧ c7Ax.map (·.HWID) = some "hw1"
    ∧ c7Ax.map (·.NodeID) = some "x"
    ∧ (SetNodeID c7reg4 c7Ax "hw1").1 = true
    ∧ (SetNodeID c7reg4 c7Ax "hw1").2 ≠ c7reg4 := by
  decide

/-- C7 amended: SetNodeID returns false and leaves the registry unchanged
whenever the requested nodeID is non-empty, currently registered under
nodeMap, and differs from the hardware ID of the node being renamed. -/
theorem C7_setNodeID_unique_amended (reg : RegisteredNodes) (node : Node) (newNodeID : String)
    (h1 : newNodeID ≠ "") (h2 : (GetNodeByNodeID reg newNodeID).isSome = true)
    (h3 : newNodeID ≠ node.HWID) :
    SetNodeID reg (some node) newNodeID = (false, reg) := by
  obtain ⟨x, hx⟩ := Option.isSome_iff_exists.mp h2
  simp [SetNodeID, h1, hx, h3]

/-- Witness for C7 amended: renaming device b to hw1 in c7reg2 fails because
hw1 is the nodeID of the hw1 device. -/
theorem C7_setNodeID_unique_amended_witness :
    SetNodeID c7reg2 (some c7Bnode) "hw1" = (false, c7reg2) :=
  C7_setNodeID_unique_amended c7reg2 c7Bnode "hw1" (by decide) (by decide) (by decide)

/-- C2 counterexample: the claim says that once a DSS identity is recorded,
even a DSS re-announcement is stored only if its signature verifies, and a
failing announcement leaves the directory entry at its prior value.  The code
records a DSS announcement via handleDSSDiscovery before the verification
step, so a re-announcement whose signature fails verification still replaces
the stored DSS identity (and the verification even ran against the newly
stored key). -/
theorem C2_counterexample :
    mapGet dirW dssAddrW = some oldDSS
    ∧ (handlePublisherDiscovery verifyNone true "dom" dirW dssAddrW
        { isSigned := true, identity := some newDSS }).err ≠ none
    ∧ mapGet (handlePublisherDiscovery verifyNone true "dom" dirW dssAddrW
        { isSigned := true, identity := some newDSS }).publisherDirectory dssAddrW
      = some newDSS
    ∧ newDSS ≠ oldDSS := by
  decide

/-- C2 amended: once a DSS identity is recorded, an announcement for a
non-DSS address is stored only if its signature verifies against the DSS key
currently in the directory, and a failing announcement leaves the directory
unchanged; an announcement arriving on the DSS address itself however is
recorded into the directory unconditionally, before and regardless of the
signature check. -/
theorem C2_dss_trust_amended (verify : String → String → String → Bool)
    (signMessages : Bool) (domain : String)
    (dir : List (String × PublisherIdentityMessage)) (address : String)
    (m : IdentityEnvelope) (pubMsg : PublisherIdentityMessage) (k : String)
    (hid : m.identity = some pubMsg)
    (hpol : ¬ (m.isSigned = false ∧ signMessages = true)) :
    (address ≠ MakePublisherIdentityAddress domain DSSPublisherID →
      GetPublisherKey dir (MakePublisherIdentityAddress domain DSSPublisherID) = some k →
      verify (encodeIdentity pubMsg) pubMsg.IdentitySignature k = false →
      handlePublisherDiscovery verify signMessages domain dir address m
        = { err := some (errNotCountersigned address), publisherDirectory := dir })
    ∧ (address = MakePublisherIdentityAddress domain DSSPublisherID →
      mapGet (handlePublisherDiscovery verify signMessages domain dir address m).publisherDirectory
          pubMsg.Address
        = some pubMsg) := by
  constructor
  · intro haddr hkey hver
    simp only [handlePublisherDiscovery, if_neg hpol, hid, if_neg haddr, hkey, hver]
    simp
  · intro haddr
    simp only [handlePublisherDiscovery, if_neg hpol, hid, if_pos haddr, handleDSSDiscovery]
    cases hk : GetPublisherKey (UpdatePublisher dir pubMsg)
        (MakePublisherIdentityAddress domain DSSPublisherID)
    · simp [UpdatePublisher, mapGet_mapSet_self]
    · split <;> (try split) <;> simp [UpdatePublisher, mapGet_mapSet_self]

/-- Witness for C2 amended: a non-DSS announcement failing verification is
rejected with the directory unchanged, and a DSS re-announcement lands in the
directory. -/
theorem C2_dss_trust_amended_witness :
    (handlePublisherDiscovery verifyNone false "dom" dirW "dom/other/$identity"
        { isSigned := false, identity := some pubOther }
      = { err := some (errNotCountersigned "dom/other/$identity"), publisherDirectory := dirW })
    ∧ mapGet (handlePublisherDiscovery verifyNone false "dom" dirW dssAddrW
        { isSigned := false, identity := some newDSS }).publisherDirectory newDSS.Address
      = some newDSS :=
  ⟨(C2_dss_trust_amended verifyNone false "dom" dirW "dom/other/$identity"
      { isSigned := false, identity := some pubOther } pubOther "oldkey" rfl
      (by simp)).1 (by decide) (by decide) rfl,
   (C2_dss_trust_amended verifyNone false "dom" dirW dssAddrW
      { isSigned := false, identity := some newDSS } newDSS "oldkey" rfl
      (by simp)).2 rfl⟩

/-- C3 counterexample: the claim says a set command whose derived input
discovery address is not a registered input is rejected without a timestamp
table update.  With no registered inputs, delivering a well-formed signed and
encrypted command returns success (no error) and records the sender
timestamp; only the callback is absent. -/
theorem C3_counterexample :
    (decodeSetCommand c3st "dom/pub/n1/switch/0/$set" c3msg).err = none
    ∧ (decodeSetCommand c3st "dom/pub/n1/switch/0/$set" c3msg).st.senderTimestamp
        ≠ c3st.senderTimestamp
    ∧ (decodeSetCommand c3st "dom/pub/n1/switch/0/$set" c3msg).notified = none := by
  decide

/-- C3 amended: a well-formed, signed, encrypted and replay-fresh set command
whose derived input discovery address is not a registered input is not
rejected by decodeSetCommand: it returns success and updates the per-sender
timestamp table; only the input callback is not invoked, because the input
registry finds no input at that address. -/
theorem C3_unknown_input_amended (st : SetCommandState) (address : String) (m : SetEnvelope)
    (h1 : ¬ (goSplit address).length < 6)
    (h2 : m.isEncrypted = true) (h3 : m.isSigned = true) (h4 : m.decodeErr = none)
    (h5 : goStringLess m.payload.Timestamp
        ((mapGet st.senderTimestamp m.payload.Sender).getD "") = false)
    (h6 : st.registeredInputAddresses.contains
        (goJoin ((goSplit address).set 5 MessageTypeInputDiscovery)) = false) :
    decodeSetCommand st address m
      = { err := none,
          st := { st with senderTimestamp := mapSet st.senderTimestamp m.payload.Sender m.payload.Timestamp },
          notified := none } := by
  simp only [decodeSetCommand, if_neg h1, h2, h3, h4, h5, NotifyInputHandler, h6]
  simp

/-- Witness for C3 amended at the concrete empty ingestor state. -/
theorem C3_unknown_input_amended_witness :
    decodeSetCommand c3st "dom/pub/n1/switch/0/$set" c3msg
      = { err := none,
          st := { c3st with senderTimestamp := mapSet c3st.senderTimestamp c3msg.payload.Sender c3msg.payload.Timestamp },
          notified := none } :=
  C3_unknown_input_amended c3st "dom/pub/n1/switch/0/$set" c3msg
    (by decide) rfl rfl rfl (by decide) (by decide)

/-- The not-encrypted and not-signed rejections carry different error
texts, for every address. -/
theorem errNotEncrypted_ne_errNotSigned (address : String) :
    errNotEncrypted address ≠ errNotSigned address := by
  simp only [errNotEncrypted, errNotSigned]
  exact append_ne_of_suffix_len _ _ (by decide)

/-- The not-encrypted and decode-failure rejections carry different error
texts, for every address and decode error. -/
theorem errNotEncrypted_ne_errDecode (address e : String) :
    errNotEncrypted address ≠ errDecode address e := by
  intro he
  have hd := congrArg String.data he
  simp only [errNotEncrypted, errDecode, String.data_append] at hd
  simp [List.cons_append, List.append_assoc] at hd

/-- The not-signed and decode-failure rejections carry different error texts,
for every address and decode error. -/
theorem errNotSigned_ne_errDecode (address e : String) :
    errNotSigned address ≠ errDecode address e := by
  intro he
  have hd := congrArg String.data he
  simp only [errNotSigned, errDecode, String.data_append] at hd
  simp [List.cons_append, List.append_assoc] at hd

/-- C5: receiveConfigureCommand rejects an envelope that is not encrypted,
not signed, or whose decode failed, each with its own distinct error and
without touching the registry; and a configure command reaches
UpdateNodeConfigValues only when the envelope was both signed and encrypted
and decoded without error. -/
theorem C5_security_gate
    (handler : Option (String → Option (List (String × String)) → Option (List (String × String))))
    (reg : RegisteredNodes) (address e : String) (m : ConfigureEnvelope) :
    (m.isEncrypted = false →
      receiveConfigureCommand handler reg address m
        = { err := some (errNotEncrypted address), reg := reg, applied := none })
    ∧ (m.isEncrypted = true → m.isSigned = false →
      receiveConfigureCommand handler reg address m
        = { err := some (errNotSigned address), reg := reg, applied := none })
    ∧ (m.isEncrypted = true → m.isSigned = true → m.decodeErr = some e →
      receiveConfigureCommand handler reg address m
        = { err := some (errDecode address e), reg := reg, applied := none })
    ∧ errNotEncrypted address ≠ errNotSigned address
    ∧ errNotEncrypted address ≠ errDecode address e
    ∧ errNotSigned address ≠ errDecode address e
    ∧ ((receiveConfigureCommand handler reg address m).applied.isSome = true →
      m.isEncrypted = true ∧ m.isSigned = true ∧ m.decodeErr = none) := by
  refine ⟨?_, ?_, ?_, errNotEncrypted_ne_errNotSigned address,
    errNotEncrypted_ne_errDecode address e, errNotSigned_ne_errDecode address e, ?_⟩
  · intro h
    simp [receiveConfigureCommand, h]
  · intro h1 h2
    simp [receiveConfigureCommand, h1, h2]
  · intro h1 h2 h3
    simp [receiveConfigureCommand, h1, h2, h3]
  · intro h
    by_cases he : m.isEncrypted = true
    · by_cases hs : m.isSigned = true
      · cases hd : m.decodeErr with
        | some e2 => simp [receiveConfigureCommand, he, hs, hd] at h
        | none => exact ⟨he, hs, rfl⟩
      · have hs2 : m.isSigned = false := by simpa using hs
        simp [receiveConfigureCommand, he, hs2] at h
    · have he2 : m.isEncrypted = false := by simpa using he
      simp [receiveConfigureCommand, he2] at h

/-- An envelope delivered encrypted but not signed. -/
def mUnsigned : ConfigureEnvelope :=
  { raw := "r", isSigned := false, isEncrypted := true, decodeErr := none,
    payload := { Sender := "s", Timestamp := "t", Attr := none } }

/-- An envelope delivered signed but not encrypted. -/
def mUnencrypted : ConfigureEnvelope :=
  { raw := "r", isSigned := true, isEncrypted := false, decodeErr := none,
    payload := { Sender := "s", Timestamp := "t", Attr := none } }

/-- A signed and encrypted envelope whose decode failed. -/
def mBadDecode : ConfigureEnvelope :=
  { raw := "r", isSigned := true, isEncrypted := true, decodeErr := some "boom",
    payload := { Sender := "s", Timestamp := "t", Attr := none } }

/-- Witness for C5 at concrete envelopes: not-encrypted, not-signed and
failed-decode deliveries are each rejected with their own error and the
registry untouched. -/
theorem C5_security_gate_witness :
    (receiveConfigureCommand none regA "a" mUnencrypted
      = { err := some (errNotEncrypted "a"), reg := regA, applied := none })
    ∧ (receiveConfigureCommand none regA "a" mUnsigned
      = { err := some (errNotSigned "a"), reg := regA, applied := none })
    ∧ (receiveConfigureCommand none regA "a" mBadDecode
      = { err := some (errDecode "a" "boom"), reg := regA, applied := none }) :=
  ⟨(C5_security_gate none regA "a" "boom" mUnencrypted).1 (by decide),
   (C5_security_gate none regA "a" "boom" mUnsigned).2.1 (by decide) (by decide),
   (C5_security_gate none regA "a" "boom" mBadDecode).2.2.1 (by decide) (by decide) (by decide)⟩

/-- C6: the claim says a gated configure command whose address resolves to a
registered node has its attribute map applied so that configured values are
stored as the node attribute values.  After renaming the node to alias1,
the address resolves and UpdateNodeConfigValues is invoked, but it is keyed
by the nodeID while its lookup is by hardware ID, so nothing is stored: the
registry is unchanged and the name attribute value is not set. -/
theorem C6_configure_lost_after_rename :
    (GetNodeByAddress c6reg2 "dom/pub/alias1/$configure").isSome = true
    ∧ ((GetNodeByAddress c6reg2 "dom/pub/alias1/$configure").map
        (fun n => (mapGet (configOf c6reg2 n) NodeAttrName).isSome)) = some true
    ∧ c6res.err = none
    ∧ c6res.applied = some ("alias1", [(NodeAttrName, "newname")])
    ∧ c6res.reg = c6reg2
    ∧ GetNodeAttr c6res.reg "hw1" NodeAttrName = "" := by
  decide

/-- regB with the name configuration value set to the non-numeric abc. -/
def regC : RegisteredNodes :=
  (UpdateNodeConfigValues regB "hw1" (some [(NodeAttrName, "abc")])).2

/-- C8: GetNodeConfigString resolves the non-empty stored attribute value,
else the non-empty configuration default, else the caller default, returning
the caller default with a NotFound error when the device or the configuration
key is missing; and the typed wrappers (the shape shared by the Bool, Float
and Int variants) pass these errors through with the caller default, report a
parse failure with the caller default, and therefore always return the caller
default whenever any error is returned. -/
theorem C8_config_precedence {A : Type} (parse : String → Option A)
    (errText : String → String → String) (reg : RegisteredNodes)
    (nodeHWID attrName defaultValue v e : String) (dA x : A)
    (node : Node) (config : ConfigAttr) :
    (mapGet reg.deviceMap nodeHWID = none →
      GetNodeConfigString reg nodeHWID attrName defaultValue
        = (defaultValue, some (errDeviceNotFound nodeHWID)))
    ∧ (mapGet reg.deviceMap nodeHWID = some node →
      mapGet (configOf reg node) attrName = none →
      GetNodeConfigString reg nodeHWID attrName defaultValue
        = (defaultValue, some (errConfigNotFound nodeHWID attrName)))
    ∧ (mapGet reg.deviceMap nodeHWID = some node →
      mapGet (configOf reg node) attrName = some config →
      GetNodeConfigString reg nodeHWID attrName defaultValue
        = (if (mapGet node.Attr attrName).getD "" ≠ "" then
            ((mapGet node.Attr attrName).getD "", none)
          else if config.Default ≠ "" then (config.Default, none)
          else (defaultValue, none)))
    ∧ ((GetNodeConfigString reg nodeHWID attrName defaultValue).2 ≠ none →
      (GetNodeConfigString reg nodeHWID attrName defaultValue).1 = defaultValue)
    ∧ (GetNodeConfigString reg nodeHWID attrName "" = (v, some e) →
      GetNodeConfigParsed parse errText reg nodeHWID attrName dA = (dA, some e))
    ∧ (GetNodeConfigString reg nodeHWID attrName "" = ("", none) →
      GetNodeConfigParsed parse errText reg nodeHWID attrName dA = (dA, none))
    ∧ (GetNodeConfigString reg nodeHWID attrName "" = (v, none) → v ≠ "" → parse v = none →
      GetNodeConfigParsed parse errText reg nodeHWID attrName dA
        = (dA, some (errText nodeHWID attrName)))
    ∧ (GetNodeConfigString reg nodeHWID attrName "" = (v, none) → v ≠ "" → parse v = some x →
      GetNodeConfigParsed parse errText reg nodeHWID attrName dA = (x, none))
    ∧ ((GetNodeConfigParsed parse errText reg nodeHWID attrName dA).2 ≠ none →
      (GetNodeConfigParsed parse errText reg nodeHWID attrName dA).1 = dA) := by
  refine ⟨?_, ?_, ?_, ?_, ?_, ?_, ?_, ?_, ?_⟩
  · intro h
    simp [GetNodeConfigString, h]
  · intro h1 h2
    simp [GetNodeConfigString, h1, h2]
  · intro h1 h2
    simp only [GetNodeConfigString, h1, h2]
    cases hA : mapGet node.Attr attrName with
    | none =>
      by_cases hD : config.Default = "" <;> simp [hA, hD]
    | some v1 =>
      by_cases hv : v1 = "" <;> by_cases hD : config.Default = "" <;> simp [hA, hv, hD]
  · intro h
    rcases hd : mapGet reg.deviceMap nodeHWID with _ | n
    · simp [GetNodeConfigString, hd]
    · rcases hc : mapGet (configOf reg n) attrName with _ | cfg
      · simp [GetNodeConfigString, hd, hc]
      · simp only [GetNodeConfigString, hd, hc] at h
        split at h <;> (try split at h) <;> (try split at h) <;> simp at h
  · intro h
    simp [GetNodeConfigParsed, h]
  · intro h
    simp [GetNodeConfigParsed, h]
  · intro h hv hp
    simp [GetNodeConfigParsed, h, hv, hp]
  · intro h hv hp
    simp [GetNodeConfigParsed, h, hv, hp]
  · intro h
    rcases hgs : GetNodeConfigString reg nodeHWID attrName "" with ⟨v1, e1⟩
    cases e1 with
    | some e2 => simp [GetNodeConfigParsed, hgs]
    | none =>
      by_cases hv : v1 = ""
      · simp [GetNodeConfigParsed, hgs, hv] at h
      · cases hp : parse v1 with
        | none => simp [GetNodeConfigParsed, hgs, hv, hp]
        | some y => simp [GetNodeConfigParsed, hgs, hv, hp] at h

/-- Witness for C8: an unknown device returns the caller default with a
NotFound error; the publishLatest configuration resolves to its default true
with no stored attribute; and a stored non-numeric value makes the
Atoi-instantiated wrapper return the caller default with a parse error. -/
theorem C8_config_precedence_witness :
    (GetNodeConfigString regB "nope" NodeAttrName "dflt"
      = ("dflt", some (errDeviceNotFound "nope")))
    ∧ (GetNodeConfigString regB "hw1" NodeAttrPublishLatest "dflt"
      = (if (mapGet nodeB.Attr NodeAttrPublishLatest).getD "" ≠ "" then
          ((mapGet nodeB.Attr NodeAttrPublishLatest).getD "", none)
        else if (NewNodeConfig DataTypeBool "Enable publishing latest output" "true").Default ≠ ""
          then ((NewNodeConfig DataTypeBool "Enable publishing latest output" "true").Default, none)
        else ("dflt", none)))
    ∧ (GetNodeConfigParsed goAtoi (fun h a => "NodeList.GetNodeConfigInt: Node " ++ h ++ " configuration " ++ a ++ " is not an integer") regC "hw1" NodeAttrName (99 : Int)
      = (99, some ("NodeList.GetNodeConfigInt: Node " ++ "hw1" ++ " configuration " ++ NodeAttrName ++ " is not an integer"))) :=
  ⟨(C8_config_precedence goAtoi (fun _ _ => "") regB "nope" NodeAttrName "dflt" "" ""
      (0 : Int) 0 dummyNode (NewNodeConfig "" "" "")).1 (by decide),
   (C8_config_precedence goAtoi (fun _ _ => "") regB "hw1" NodeAttrPublishLatest "dflt" "" ""
      (0 : Int) 0 nodeB (NewNodeConfig DataTypeBool "Enable publishing latest output" "true")).2.2.1
      (by decide) (by decide),
   (C8_config_precedence goAtoi
      (fun h a => "NodeList.GetNodeConfigInt: Node " ++ h ++ " configuration " ++ a ++ " is not an integer")
      regC "hw1" NodeAttrName "" "abc" "" (99 : Int) 0 dummyNode (NewNodeConfig "" "" "")).2.2.2.2.2.2.1
      (by decide) (by decide) (by decide)⟩

end IotZone
